import Mathlib

/-!
Shallow embedding of the ArduPilot fixed-wing autotuner
(`libraries/APM_Control/AP_AutoTune.cpp`) and proofs about it.

Floating-point values are modelled as exact rationals, 32-bit unsigned
millisecond clocks as naturals compared with explicit modular
subtraction, and the rate-PID / parameter-store collaborators as an
explicit record threaded through every call.  Division is rational
division (total, with `x / 0 = 0`); the two places the source can
divide by zero (`FF_single` and the `max_rate / max_target` demand
ratio) are discussed at the corresponding theorems.
-/

namespace ATune

/-- `constrain_float` / `constrain_value` from AP_Math: clamp with the
source's branch order (`if (amt < low) return low; if (amt > high)
return high; return amt`). -/
def constrain_float (v lo hi : ℚ) : ℚ :=
  if v < lo then lo else if v > hi then hi else v

/-- `constrain_int32` from AP_Math, same branch order on integers. -/
def constrain_int (v lo hi : ℤ) : ℤ :=
  if v < lo then lo else if v > hi then hi else v

/-- Modelled from the spec: `linear_interpolate(a, b, x, x0, x1)` from
AP_Math (not under src/) is the standard clamped-linear map: `a` when
`x ≤ x0`, `b` when `x ≥ x1`, linear in between. -/
def linear_interpolate (a b x x0 x1 : ℚ) : ℚ :=
  if x ≤ x0 then a
  else if x ≥ x1 then b
  else a + (b - a) * (x - x0) / (x1 - x0)

/-- 32-bit unsigned millisecond subtraction `now - prev` as the source
computes every duration (`AP_HAL::millis()` timestamps). -/
def sub32 (now prev : ℕ) : ℕ :=
  ((now % 4294967296) + 4294967296 - (prev % 4294967296)) % 4294967296

/-- `ATGains`: tau/rmax envelope plus the five PID gains, as stored in
the `current` / `restore` / `last_save` / `next_save` snapshots. -/
structure ATGains where
  tau : ℚ
  rmax_pos : ℤ
  rmax_neg : ℤ
  FF : ℚ
  P : ℚ
  I : ℚ
  D : ℚ
  IMAX : ℚ
deriving DecidableEq

/-- The rate-PID collaborator: the five gain parameters plus the slew
limit, all reachable through `rpid` handles in the source. -/
structure PIDState where
  FF : ℚ
  P : ℚ
  I : ℚ
  D : ℚ
  IMAX : ℚ
  slew_limit : ℚ
deriving DecidableEq

/-- `AP_Logger::PID_Info`, the per-tick telemetry handed to `update`. -/
structure PIDInfo where
  target : ℚ
  actual : ℚ
  FF : ℚ
  P : ℚ
  I : ℚ
  D : ℚ
  Dmod : ℚ
  slew_rate : ℚ
deriving DecidableEq

/-- The airframe parameter block fields the tuner reads
(`AP_Vehicle::FixedWing`). -/
structure FWParams where
  roll_limit_cd : ℤ
  pitch_limit_max_cd : ℤ
  pitch_limit_min_cd : ℤ
  autotune_level : ℤ
deriving DecidableEq

/-- `ATType`: which axis this tuner instance drives. -/
inductive ATType where
  | roll
  | pitch
deriving DecidableEq

/-- `ATState`: the three-state event detector. -/
inductive ATState where
  | IDLE
  | DEMAND_POS
  | DEMAND_NEG
deriving DecidableEq

/-- `Action`: logging-only record of what the last update decided. -/
inductive Action where
  | NONE
  | LOW_RATE
  | SHORT
  | RAISE_PD
  | LOWER_PD
  | IDLE_LOWER_PD
deriving DecidableEq

/-- Modelled from the spec: the single-pole low-pass filters of the
Filter library (header not under src/).  One step moves the state
toward the input by the smoothing coefficient `alpha`, which
`set_cutoff_frequency` derives from loop rate and cutoff and which is
kept opaque here. -/
structure LPF where
  alpha : ℚ
  value : ℚ
deriving DecidableEq

def LPF.step (f : LPF) (x : ℚ) : LPF :=
  { f with value := f.value + f.alpha * (x - f.value) }

def LPF.reset (f : LPF) : LPF := { f with value := 0 }

/-- Modelled from the spec: the median filter over single-event FF
estimates with window length 2 (class declared in the header, not
under src/).  It buffers the last two samples; its output is their
median. -/
structure FFFilter where
  samples : List ℚ
deriving DecidableEq

def FFFilter.push (f : FFFilter) (x : ℚ) : FFFilter :=
  { samples := (x :: f.samples).take 2 }

def FFFilter.out (f : FFFilter) : ℚ :=
  match f.samples with
  | [a, b] => (a + b) / 2
  | [a] => a
  | _ => 0

def FFFilter.reset (_f : FFFilter) : FFFilter := { samples := [] }

/-- The whole tuner instance: own state plus the rate-PID collaborator
state, a counter of parameter-store writes and a counter of emitted
log records (so that frame conditions are expressible). -/
structure TunerSys where
  running : Bool
  state : ATState
  type : ATType
  current : ATGains
  restore : ATGains
  last_save : ATGains
  next_save : ATGains
  last_save_ms : ℕ
  state_enter_ms : ℕ
  last_log_ms : ℕ
  actuator_filter : LPF
  rate_filter : LPF
  target_filter : LPF
  ff_filter : FFFilter
  min_actuator : ℚ
  max_actuator : ℚ
  min_rate : ℚ
  max_rate : ℚ
  min_target : ℚ
  max_target : ℚ
  max_P : ℚ
  max_D : ℚ
  min_Dmod : ℚ
  max_Dmod : ℚ
  max_SRate : ℚ
  FF_single : ℚ
  action : Action
  pid : PIDState
  store_writes : ℕ
  logs : ℕ
deriving DecidableEq

/-- `AP_AutoTune::get_gains`: the snapshot `v` with the five gain
fields replaced by the live PID values. -/
def get_gains (p : PIDState) (v : ATGains) : ATGains :=
  { v with FF := p.FF, P := p.P, I := p.I, D := p.D, IMAX := p.IMAX }

/-- Condition under which `save_float_if_changed` issues a
parameter-store write: `value <= 0 || |(value-old)/value| > 0.001`. -/
def float_saved (old new : ℚ) : Bool :=
  decide (new ≤ 0) || decide (|(new - old) / new| > 1/1000)

/-- Condition under which `save_int16_if_changed` issues a
parameter-store write: the value changed. -/
def int16_saved (old new : ℤ) : Bool :=
  decide (old ≠ new)

/-- `AP_AutoTune::save_gains(v)`: temporarily swaps `current` for
`last_save`, writes `v`'s envelope into the tau/rmax parameters and
`v`'s gains into the PID handles (counting the elided-write policy),
refreshes `last_save` from what was just written, and restores
`current`. -/
def save_gains (v : ATGains) (s : TunerSys) : TunerSys :=
  let tmp := s.current
  let cur0 := s.last_save
  let writes :=
    (float_saved cur0.tau v.tau).toNat +
    (int16_saved cur0.rmax_pos v.rmax_pos).toNat +
    (int16_saved cur0.rmax_neg v.rmax_neg).toNat +
    (float_saved s.pid.FF v.FF).toNat +
    (float_saved s.pid.P v.P).toNat +
    (float_saved s.pid.I v.I).toNat +
    (float_saved s.pid.D v.D).toNat +
    (float_saved s.pid.IMAX v.IMAX).toNat
  let cur1 := { cur0 with tau := v.tau, rmax_pos := v.rmax_pos, rmax_neg := v.rmax_neg }
  let pid1 := { s.pid with FF := v.FF, P := v.P, I := v.I, D := v.D, IMAX := v.IMAX }
  { s with pid := pid1,
           last_save := get_gains pid1 cur1,
           current := tmp,
           store_writes := s.store_writes + writes }

/-- `AP_AutoTune::set_gains(v)`: `current := v` and push `v`'s five
gains into the PID handles (plain `set`, no store write). -/
def set_gains (v : ATGains) (s : TunerSys) : TunerSys :=
  { s with current := v,
           pid := { s.pid with FF := v.FF, P := v.P, I := v.I, D := v.D, IMAX := v.IMAX } }

/-- `AP_AutoTune::stop`: if running, clear `running`, save the
`restore` snapshot into the PID / parameter store and mirror it into
`current`; otherwise do nothing. -/
def stop (s : TunerSys) : TunerSys :=
  if s.running then
    let s1 := { s with running := false }
    let s2 := save_gains s1.restore s1
    { s2 with current := s2.restore }
  else s

/-- `AP_AutoTune::check_save`: return unless `AUTOTUNE_SAVE_PERIOD`
(10000 ms) has elapsed since `last_save_ms` (32-bit subtraction);
otherwise rotate the snapshot ring: persist `next_save`, make it the
new `restore` and `last_save`, put the live gains back into the PID
and queue them as the next `next_save`. -/
def check_save (now : ℕ) (s : TunerSys) : TunerSys :=
  if sub32 now s.last_save_ms < 10000 then s
  else
    let tmp := get_gains s.pid s.current
    let s1 := save_gains s.next_save s
    let s2 := { s1 with last_save := s1.next_save }
    let s3 := set_gains tmp s2
    { s3 with restore := s3.next_save, next_save := tmp, last_save_ms := now }

/-- The auto-tuning table (`tuning_table[]`), rows 0..10 for levels
1..11; each row is `(tau, rmax)`. -/
def tuning_table : ℕ → ℚ × ℤ
  | 0 => (1, 20)
  | 1 => (9/10, 30)
  | 2 => (4/5, 40)
  | 3 => (7/10, 50)
  | 4 => (3/5, 60)
  | 5 => (1/2, 75)
  | 6 => (3/10, 90)
  | 7 => (1/5, 120)
  | 8 => (3/20, 160)
  | 9 => (1/10, 210)
  | _ => (1/10, 300)

/-- The clamped aggressiveness level
`constrain_int32(aparm.autotune_level, 0, ARRAY_SIZE(tuning_table))`. -/
def level_of (aparm : FWParams) : ℕ :=
  (constrain_int aparm.autotune_level 0 11).toNat

/-- `target_rmax` selection in `update_rmax`. -/
def rmax_target (level : ℕ) (s : TunerSys) : ℤ :=
  if level = 0 then constrain_int s.current.rmax_pos 75 720
  else (tuning_table (level - 1)).2

/-- `target_tau` before the I/FF inflation step in `update_rmax`. -/
def tau_target_base (level : ℕ) (s : TunerSys) : ℚ :=
  if level = 0 then constrain_float s.current.tau (1/10) 2
  else (tuning_table (level - 1)).1

/-- `target_tau` after the I/FF inflation step: for positive level and
positive FF, `invtau = 1/target_tau + I/FF`, and if `invtau` is
positive, `target_tau = max(target_tau, 1/invtau)`
(`is_positive` modelled as strict positivity). -/
def tau_target (level : ℕ) (s : TunerSys) : ℚ :=
  let t := tau_target_base level s
  if 0 < level ∧ 0 < s.current.FF then
    let invtau := 1 / t + s.current.I / s.current.FF
    if 0 < invtau then max t (1 / invtau) else t
  else t

/-- `AP_AutoTune::update_rmax`: pick targets from the level, default a
zero `rmax_pos` to 75, slew `rmax_pos` by at most 20 toward the
target, mirror `rmax_neg` when level is nonzero or `rmax_neg` is
zero, and slew `tau` by at most 15% toward its target. -/
def update_rmax (aparm : FWParams) (s : TunerSys) : TunerSys :=
  let level := level_of aparm
  let target_rmax := rmax_target level s
  let ttau := tau_target level s
  let s1 := if s.current.rmax_pos = 0
            then { s with current := { s.current with rmax_pos := 75 } }
            else s
  let s2 := { s1 with current := { s1.current with
    rmax_pos := constrain_int target_rmax (s1.current.rmax_pos - 20) (s1.current.rmax_pos + 20) } }
  let s3 := if level ≠ 0 ∨ s2.current.rmax_neg = 0
            then { s2 with current := { s2.current with rmax_neg := s2.current.rmax_pos } }
            else s2
  { s3 with current := { s3.current with
    tau := constrain_float ttau (s3.current.tau * (17/20)) (s3.current.tau * (23/20)) } }

/-- First phase of `AP_AutoTune::start`: mark running, snapshot the
live gains into `current`/`restore`/`last_save`, run `update_rmax`,
constrain the PID's IMAX to [0.4, 0.9], queue `next_save` and reset
the ff/actuator/rate filters. -/
def start_main (aparm : FWParams) (now : ℕ) (s : TunerSys) : TunerSys :=
  let s1 := { s with running := true, state := ATState.IDLE, last_save_ms := now }
  let g := get_gains s1.pid s1.current
  let s2 := { s1 with current := g, restore := g, last_save := g }
  let s3 := update_rmax aparm s2
  let s4 := { s3 with pid := { s3.pid with
    IMAX := constrain_float s3.pid.IMAX (2/5) (9/10) } }
  let s5 := { s4 with next_save := s4.current }
  { s5 with ff_filter := s5.ff_filter.reset,
            actuator_filter := s5.actuator_filter.reset,
            rate_filter := s5.rate_filter.reset }

/-- The `!is_positive(rpid.slew_limit())` branch of `start`: default
the slew limit to 150 (with a store write, `set_and_save`). -/
def start_slew (s6 : TunerSys) : TunerSys :=
  if 0 < s6.pid.slew_limit then s6
  else { s6 with pid := { s6.pid with slew_limit := 150 },
                 store_writes := s6.store_writes + 1 }

/-- The trailing FF floor of `start`: if `current.FF < 0.01`, set it
(and the PID FF) to 0.01. -/
def start_ff_floor (s7 : TunerSys) : TunerSys :=
  if s7.current.FF < 1/100 then
    { s7 with current := { s7.current with FF := 1/100 },
              pid := { s7.pid with FF := 1/100 } }
  else s7

/-- `AP_AutoTune::start`, assembled from its three phases in source
order. -/
def start (aparm : FWParams) (now : ℕ) (s : TunerSys) : TunerSys :=
  start_ff_floor (start_slew (start_main aparm now s))

/-- Attitude limit in degrees: ROLL uses `roll_limit_cd/100`, PITCH
uses `min(|pitch_limit_max_cd|, |pitch_limit_min_cd|)/100`. -/
def att_limit_deg (aparm : FWParams) (t : ATType) : ℚ :=
  match t with
  | ATType.roll => (aparm.roll_limit_cd : ℚ) * (1/100)
  | ATType.pitch =>
      ((min aparm.pitch_limit_max_cd.natAbs aparm.pitch_limit_min_cd.natAbs : ℕ) : ℚ) * (1/100)

/-- `rate_threshold1 = 0.6 * MIN(att_limit_deg / current.tau,
current.rmax_pos)`.  (Rational division makes this `0` at `tau = 0`
where the C float computation gives `+inf` and hence the `rmax_pos`
arm of the `MIN`; no claim depends on the threshold's value at
`tau = 0`.) -/
def rate_threshold1 (aparm : FWParams) (s : TunerSys) : ℚ :=
  (3/5) * min (att_limit_deg aparm s.type / s.current.tau) (s.current.rmax_pos : ℚ)

/-- `rate_threshold2 = 0.25 * rate_threshold1`. -/
def rate_threshold2 (aparm : FWParams) (s : TunerSys) : ℚ :=
  (1/4) * rate_threshold1 aparm s

/-- `in_att_demand = |angle_err_deg| >= 0.3 * att_limit_deg`. -/
def in_att_demand (aparm : FWParams) (angle_err_deg : ℚ) (s : TunerSys) : Bool :=
  decide (|angle_err_deg| ≥ (3/10) * att_limit_deg aparm s.type)

/-- The filtered target rate this tick (`target_filter.apply(pinfo.target)`). -/
def desired_rate_of (inp : PIDInfo) (s : TunerSys) : ℚ :=
  (s.target_filter.step inp.target).value

/-- The `switch (state)` block of `update`: the tentative `new_state`. -/
def next_state (desired thr1 thr2 : ℚ) (in_att : Bool) (st : ATState) : ATState :=
  match st with
  | ATState.IDLE =>
      if desired > thr1 ∧ in_att then ATState.DEMAND_POS
      else if desired < -thr1 ∧ in_att then ATState.DEMAND_NEG
      else ATState.IDLE
  | ATState.DEMAND_POS => if desired < thr2 then ATState.IDLE else ATState.DEMAND_POS
  | ATState.DEMAND_NEG => if desired > -thr2 then ATState.IDLE else ATState.DEMAND_NEG

/-- Signal-conditioning prefix of `update`: run the three low-pass
filters and fold this tick into the per-event extrema. -/
def cond_state (inp : PIDInfo) (s : TunerSys) : TunerSys :=
  let tf := s.target_filter.step inp.target
  let clipped := constrain_float (inp.FF + inp.P + inp.D + inp.I) (-45) 45 - inp.I
  let af := s.actuator_filter.step clipped
  let rf := s.rate_filter.step inp.actual
  { s with target_filter := tf, actuator_filter := af, rate_filter := rf,
           max_actuator := max s.max_actuator af.value,
           min_actuator := min s.min_actuator af.value,
           max_rate := max s.max_rate rf.value,
           min_rate := min s.min_rate rf.value,
           max_target := max s.max_target tf.value,
           min_target := min s.min_target tf.value,
           max_P := max s.max_P |inp.P|,
           max_D := max s.max_D |inp.D|,
           min_Dmod := min s.min_Dmod inp.Dmod,
           max_Dmod := max s.max_Dmod inp.Dmod,
           max_SRate := max s.max_SRate inp.slew_rate }

/-- The 25 Hz logging throttle: count a record and stamp
`last_log_ms` when at least 40 ms have elapsed. -/
def log_step (now : ℕ) (s : TunerSys) : TunerSys :=
  if sub32 now s.last_log_ms ≥ 40 then
    { s with logs := s.logs + 1, last_log_ms := now }
  else s

/-- `AP_AutoTune::state_change`: reset the within-event trackers and
record the new state and entry time. -/
def state_change (now : ℕ) (new : ATState) (s : TunerSys) : TunerSys :=
  { s with min_Dmod := 1, max_Dmod := 0, max_SRate := 0, max_P := 0, max_D := 0,
           state := new, state_enter_ms := now }

/-- The `new_state == state` idle-oscillation branch: after more than
500 ms in IDLE with `max_Dmod < 0.9`, shrink whichever of P and D
peaked higher by 20% and reset the trackers. -/
def idle_lower (now : ℕ) (s : TunerSys) : TunerSys :=
  if s.state = ATState.IDLE ∧ sub32 now s.state_enter_ms > 500 ∧ s.max_Dmod < 9/10 then
    let cur := if s.max_P < s.max_D
               then { s.current with D := s.current.D * (4/5) }
               else { s.current with P := s.current.P * (4/5) }
    let s1 := { s with current := cur,
                       pid := { s.pid with P := cur.P, D := cur.D },
                       action := Action.IDLE_LOWER_PD }
    state_change now s1.state s1
  else s

/-- Entry into a DEMAND state: zero the actuator/rate extrema and
stamp the entry time. -/
def enter_event (now : ℕ) (ns : ATState) (s : TunerSys) : TunerSys :=
  { s with min_actuator := 0, max_actuator := 0, min_rate := 0, max_rate := 0,
           state_enter_ms := now, state := ns }

/-- The insufficient-rate guard on event completion:
`DEMAND_POS` with `max_rate < 0.01 * rmax_pos`, or `DEMAND_NEG` with
`min_rate > -0.01 * rmax_neg`. -/
abbrev low_rate_event (s : TunerSys) : Prop :=
  (s.state = ATState.DEMAND_POS ∧ s.max_rate < (1/100) * (s.current.rmax_pos : ℚ)) ∨
  (s.state = ATState.DEMAND_NEG ∧ s.min_rate > -((1/100) * (s.current.rmax_neg : ℚ)))

/-- The denominator of the single-event FF estimate:
`max_rate * scaler` for DEMAND_POS, `min_rate * scaler` otherwise. -/
def event_denominator (scaler : ℚ) (s : TunerSys) : ℚ :=
  if s.state = ATState.DEMAND_POS then s.max_rate * scaler else s.min_rate * scaler

/-- `FF_single = max_actuator / (max_rate * scaler)` for DEMAND_POS,
`min_actuator / (min_rate * scaler)` for DEMAND_NEG. -/
def ff_single_of (scaler : ℚ) (s : TunerSys) : ℚ :=
  (if s.state = ATState.DEMAND_POS then s.max_actuator else s.min_actuator) /
    event_denominator scaler s

/-- `abs_actuator = MAX(max_actuator, |min_actuator|)`. -/
def abs_actuator (s : TunerSys) : ℚ := max s.max_actuator |s.min_actuator|

/-- Did P or D peak above 30% of the total actuator? -/
abbrev pd_significant (s : TunerSys) : Prop :=
  s.max_P > (3/10) * abs_actuator s ∨ s.max_D > (3/10) * abs_actuator s

/-- Overshoot ratio `constrain(max_rate/max_target, 0.1, 2)` (or the
negative-axis analogue). -/
def dem_ratio_of (s : TunerSys) : ℚ :=
  if s.state = ATState.DEMAND_POS
  then constrain_float (s.max_rate / s.max_target) (1/10) 2
  else constrain_float (s.min_rate / s.min_target) (1/10) 2

/-- The decrease-branch condition:
`min_Dmod < 1.0 || (overshot && PD_significant)`. -/
abbrev decrease_cond (s : TunerSys) : Prop :=
  s.min_Dmod < 1 ∨ (dem_ratio_of s > 11/10 ∧ pd_significant s)

/-- `dmod_mul = linear_interpolate(0.8, 1, min_Dmod, 0.6, 1.0)`. -/
def dmod_mul_of (minDmod : ℚ) : ℚ :=
  linear_interpolate (4/5) 1 minDmod (3/5) 1

/-- `overshoot_mul = linear_interpolate(1, 0.8, dem_ratio, 1.1, 1.43)`. -/
def overshoot_mul_of (demRatio : ℚ) : ℚ :=
  linear_interpolate 1 (4/5) demRatio (11/10) ((13/10) * (11/10))

/-- The decrease-branch multiplier `dmod_mul * overshoot_mul`. -/
def pd_mul_dec (s : TunerSys) : ℚ :=
  dmod_mul_of s.min_Dmod * overshoot_mul_of (dem_ratio_of s)

/-- The increase-branch multiplier
`linear_interpolate(1.1, 1, max_SRate, 0.2*slew_limit, 0.6*slew_limit)`. -/
def pd_mul_inc (maxSRate slew : ℚ) : ℚ :=
  linear_interpolate (11/10) 1 maxSRate ((1/5) * slew) ((3/5) * slew)

/-- P written back by the gain law: floored to 0.01, then scaled by
the decrease multiplier when the decrease branch fires and P peaked
at least as high as D, by the increase multiplier when the increase
branch fires, and left at the floored value otherwise. -/
def newP (s : TunerSys) : ℚ :=
  let P0 := max s.pid.P (1/100)
  if decrease_cond s then
    (if s.max_P < s.max_D then P0 else P0 * pd_mul_dec s)
  else P0 * pd_mul_inc s.max_SRate s.pid.slew_limit

/-- D written back by the gain law, symmetric to `newP` with floor
0.0005 and the dominant-D side of the decrease branch. -/
def newD (s : TunerSys) : ℚ :=
  let D0 := max s.pid.D (1/2000)
  if decrease_cond s then
    (if s.max_P < s.max_D then D0 * pd_mul_dec s else D0)
  else D0 * pd_mul_inc s.max_SRate s.pid.slew_limit

/-- The action the gain law records. -/
def new_action (s : TunerSys) : Action :=
  if decrease_cond s then Action.LOWER_PD else Action.RAISE_PD

/-- The gain-law tail of `update` (lines 297-391): compute
`FF_single`, median-filter and clamp FF against the live PID FF,
adjust P and D, recompute I as `max(P*0.75, FF/TRIM_TCONST)`, write
everything back, slew rmax/tau, and drop back to IDLE. -/
def gainLaw (scaler : ℚ) (now : ℕ) (aparm : FWParams) (s : TunerSys) : TunerSys :=
  let ffs := ff_single_of scaler s
  let ffnew := constrain_float ((s.ff_filter.push ffs).out)
    (s.pid.FF * (1 - 15/100)) (s.pid.FF * (1 + 12/100))
  let P1 := newP s
  let D1 := newD s
  let I1 := max (P1 * (3/4)) (ffnew / 1)
  let s2 := { s with
    FF_single := ffs,
    ff_filter := s.ff_filter.push ffs,
    pid := { s.pid with FF := ffnew, P := P1, D := D1, I := I1 },
    current := { s.current with FF := ffnew, P := P1, I := I1, D := D1 },
    action := new_action s }
  state_change now ATState.IDLE (update_rmax aparm s2)

/-- Event completion (`new_state == IDLE` after a DEMAND state):
LOW_RATE and SHORT guards, then the gain law. -/
def finishEvent (scaler : ℚ) (now : ℕ) (aparm : FWParams) (s : TunerSys) : TunerSys :=
  if low_rate_event s then
    state_change now ATState.IDLE { s with action := Action.LOW_RATE }
  else if sub32 now s.state_enter_ms < 100 then
    state_change now ATState.IDLE { s with action := Action.SHORT }
  else gainLaw scaler now aparm s

/-- `AP_AutoTune::update`: no-op unless running; otherwise
`check_save`, signal conditioning, the state switch, the 25 Hz log,
and then the same-state / event-entry / event-completion trichotomy. -/
def update (inp : PIDInfo) (scaler angle_err_deg : ℚ) (now : ℕ) (aparm : FWParams)
    (s0 : TunerSys) : TunerSys :=
  if s0.running = false then s0
  else
    let sc := check_save now s0
    let d := desired_rate_of inp sc
    let ns := next_state d (rate_threshold1 aparm sc) (rate_threshold2 aparm sc)
      (in_att_demand aparm angle_err_deg sc) sc.state
    let s1 := log_step now (cond_state inp sc)
    if ns = sc.state then idle_lower now s1
    else if ns ≠ ATState.IDLE then enter_event now ns s1
    else finishEvent scaler now aparm s1

/-- Agreement of the live PID gains with a snapshot. -/
def gains_match (p : PIDState) (g : ATGains) : Prop :=
  p.FF = g.FF ∧ p.P = g.P ∧ p.I = g.I ∧ p.D = g.D ∧ p.IMAX = g.IMAX

/-! ### Concrete instances used by witnesses and counterexamples -/

/-- A plausible mid-flight gain snapshot. -/
def gains0 : ATGains :=
  { tau := 1/2, rmax_pos := 100, rmax_neg := 100,
    FF := 3/10, P := 1/20, I := 1/50, D := 1/100, IMAX := 1/2 }

/-- The matching live PID state. -/
def pid0 : PIDState :=
  { FF := 3/10, P := 1/20, I := 1/50, D := 1/100, IMAX := 1/2, slew_limit := 150 }

/-- A half-step low-pass filter state. -/
def lpf0 : LPF := { alpha := 1/2, value := 0 }

/-- A running tuner in IDLE with the snapshots all equal. -/
def sys0 : TunerSys :=
  { running := true, state := ATState.IDLE, type := ATType.roll,
    current := gains0, restore := gains0, last_save := gains0, next_save := gains0,
    last_save_ms := 0, state_enter_ms := 0, last_log_ms := 0,
    actuator_filter := lpf0, rate_filter := lpf0, target_filter := lpf0,
    ff_filter := { samples := [] },
    min_actuator := 0, max_actuator := 0, min_rate := 0, max_rate := 0,
    min_target := 0, max_target := 0, max_P := 0, max_D := 0,
    min_Dmod := 1, max_Dmod := 0, max_SRate := 0, FF_single := 0,
    action := Action.NONE, pid := pid0, store_writes := 0, logs := 0 }

/-- A roll airframe with 45 degrees of roll limit at level 0. -/
def aparm0 : FWParams :=
  { roll_limit_cd := 4500, pitch_limit_max_cd := 2000,
    pitch_limit_min_cd := -2500, autotune_level := 0 }

/-- Benign per-tick telemetry. -/
def inp0 : PIDInfo :=
  { target := 0, actual := 0, FF := 1/10, P := 1/20, I := 1/100, D := 1/100,
    Dmod := 1, slew_rate := 10 }

/-- A stopped tuner (for the not-running frame claim). -/
def sysNR : TunerSys := { sys0 with running := false }

/-- A tuner whose PID has a zero P gain. -/
def sysP0 : TunerSys := { sys0 with pid := { pid0 with P := 0 } }

/-- A tuner mid-positive-demand with healthy rate extrema. -/
def sysPos : TunerSys :=
  { sys0 with state := ATState.DEMAND_POS, max_rate := 5, max_target := 5,
              max_actuator := 2, min_actuator := -1 }

/-- A tuner with `rmax_pos = 0` on entry to `update_rmax`. -/
def sysC6 : TunerSys := { sys0 with current := { gains0 with rmax_pos := 0 } }

/-- A dominant-D decrease-branch event whose live P gain sits below
its 0.01 floor. -/
def sysC7 : TunerSys :=
  { sysPos with min_Dmod := 1/2, max_P := 1, max_D := 2,
                pid := { pid0 with P := 1/200 } }

/-! ### Frame lemmas for the individual steps -/

section Frames

variable (now : ℕ) (s : TunerSys) (inp : PIDInfo) (aparm : FWParams)
variable (ns : ATState) (scaler : ℚ) (v : ATGains)

@[simp] lemma check_save_state : (check_save now s).state = s.state := by
  unfold check_save save_gains set_gains get_gains; split <;> rfl

@[simp] lemma check_save_running : (check_save now s).running = s.running := by
  unfold check_save save_gains set_gains get_gains; split <;> rfl

@[simp] lemma check_save_type : (check_save now s).type = s.type := by
  unfold check_save save_gains set_gains get_gains; split <;> rfl

@[simp] lemma check_save_target_filter :
    (check_save now s).target_filter = s.target_filter := by
  unfold check_save save_gains set_gains get_gains; split <;> rfl

@[simp] lemma check_save_tau : (check_save now s).current.tau = s.current.tau := by
  unfold check_save save_gains set_gains get_gains; split <;> rfl

@[simp] lemma check_save_rmax_pos :
    (check_save now s).current.rmax_pos = s.current.rmax_pos := by
  unfold check_save save_gains set_gains get_gains; split <;> rfl

@[simp] lemma check_save_rmax_neg :
    (check_save now s).current.rmax_neg = s.current.rmax_neg := by
  unfold check_save save_gains set_gains get_gains; split <;> rfl

@[simp] lemma check_save_pid_FF : (check_save now s).pid.FF = s.pid.FF := by
  unfold check_save save_gains set_gains get_gains; split <;> rfl

@[simp] lemma check_save_desired :
    desired_rate_of inp (check_save now s) = desired_rate_of inp s := by
  unfold desired_rate_of
  rw [check_save_target_filter]

@[simp] lemma check_save_att_limit :
    att_limit_deg aparm (check_save now s).type = att_limit_deg aparm s.type := by
  rw [check_save_type]

@[simp] lemma check_save_thr1 :
    rate_threshold1 aparm (check_save now s) = rate_threshold1 aparm s := by
  unfold rate_threshold1
  rw [check_save_att_limit, check_save_tau, check_save_rmax_pos]

@[simp] lemma check_save_thr2 :
    rate_threshold2 aparm (check_save now s) = rate_threshold2 aparm s := by
  unfold rate_threshold2
  rw [check_save_thr1]

@[simp] lemma cond_state_pid : (cond_state inp s).pid = s.pid := rfl

@[simp] lemma cond_state_state : (cond_state inp s).state = s.state := rfl

@[simp] lemma cond_state_current : (cond_state inp s).current = s.current := rfl

@[simp] lemma cond_state_restore : (cond_state inp s).restore = s.restore := rfl

@[simp] lemma log_step_pid : (log_step now s).pid = s.pid := by
  unfold log_step; split <;> rfl

@[simp] lemma log_step_state : (log_step now s).state = s.state := by
  unfold log_step; split <;> rfl

@[simp] lemma log_step_restore : (log_step now s).restore = s.restore := by
  unfold log_step; split <;> rfl

@[simp] lemma state_change_pid : (state_change now ns s).pid = s.pid := rfl

@[simp] lemma state_change_state : (state_change now ns s).state = ns := rfl

@[simp] lemma state_change_restore : (state_change now ns s).restore = s.restore := rfl

@[simp] lemma state_change_action : (state_change now ns s).action = s.action := rfl

@[simp] lemma enter_event_pid : (enter_event now ns s).pid = s.pid := rfl

@[simp] lemma enter_event_state : (enter_event now ns s).state = ns := rfl

@[simp] lemma enter_event_restore : (enter_event now ns s).restore = s.restore := rfl

@[simp] lemma idle_lower_pid_FF : (idle_lower now s).pid.FF = s.pid.FF := by
  unfold idle_lower state_change; split <;> rfl

@[simp] lemma idle_lower_state : (idle_lower now s).state = s.state := by
  unfold idle_lower state_change; split <;> rfl

@[simp] lemma idle_lower_restore : (idle_lower now s).restore = s.restore := by
  unfold idle_lower state_change; split <;> rfl

@[simp] lemma update_rmax_pid : (update_rmax aparm s).pid = s.pid := by
  unfold update_rmax; dsimp only
  split <;> first | rfl | (split <;> rfl)

@[simp] lemma update_rmax_action : (update_rmax aparm s).action = s.action := by
  unfold update_rmax; dsimp only
  split <;> first | rfl | (split <;> rfl)

@[simp] lemma update_rmax_state : (update_rmax aparm s).state = s.state := by
  unfold update_rmax; dsimp only
  split <;> first | rfl | (split <;> rfl)

@[simp] lemma update_rmax_restore : (update_rmax aparm s).restore = s.restore := by
  unfold update_rmax; dsimp only
  split <;> first | rfl | (split <;> rfl)

@[simp] lemma update_rmax_running : (update_rmax aparm s).running = s.running := by
  unfold update_rmax; dsimp only
  split <;> first | rfl | (split <;> rfl)

@[simp] lemma update_rmax_current_FF :
    (update_rmax aparm s).current.FF = s.current.FF := by
  unfold update_rmax; dsimp only
  split <;> first | rfl | (split <;> rfl)

@[simp] lemma update_rmax_current_P :
    (update_rmax aparm s).current.P = s.current.P := by
  unfold update_rmax; dsimp only
  split <;> first | rfl | (split <;> rfl)

/-- The rmax_pos slew as one formula: the target is clamped to within
20 of the (zero-defaulted) entry value. -/
lemma update_rmax_rmax_pos :
    (update_rmax aparm s).current.rmax_pos =
      constrain_int (rmax_target (level_of aparm) s)
        ((if s.current.rmax_pos = 0 then (75:ℤ) else s.current.rmax_pos) - 20)
        ((if s.current.rmax_pos = 0 then (75:ℤ) else s.current.rmax_pos) + 20) := by
  unfold update_rmax; dsimp only
  split <;> (split <;> rfl)

/-- The tau slew as one formula. -/
lemma update_rmax_tau :
    (update_rmax aparm s).current.tau =
      constrain_float (tau_target (level_of aparm) s)
        (s.current.tau * (17/20)) (s.current.tau * (23/20)) := by
  unfold update_rmax; dsimp only
  split <;> first | rfl | (split <;> rfl)

@[simp] lemma save_gains_pid_gains :
    (save_gains v s).pid.FF = v.FF ∧ (save_gains v s).pid.P = v.P ∧
    (save_gains v s).pid.I = v.I ∧ (save_gains v s).pid.D = v.D ∧
    (save_gains v s).pid.IMAX = v.IMAX := by
  refine ⟨rfl, rfl, rfl, rfl, rfl⟩

@[simp] lemma save_gains_running : (save_gains v s).running = s.running := rfl

@[simp] lemma save_gains_restore : (save_gains v s).restore = s.restore := rfl

@[simp] lemma gainLaw_state : (gainLaw scaler now aparm s).state = ATState.IDLE := rfl

lemma gainLaw_pid_P : (gainLaw scaler now aparm s).pid.P = newP s := by
  unfold gainLaw state_change
  simp only [update_rmax_pid]

lemma gainLaw_pid_D : (gainLaw scaler now aparm s).pid.D = newD s := by
  unfold gainLaw state_change
  simp only [update_rmax_pid]

lemma gainLaw_pid_FF : (gainLaw scaler now aparm s).pid.FF =
    constrain_float ((s.ff_filter.push (ff_single_of scaler s)).out)
      (s.pid.FF * (1 - 15/100)) (s.pid.FF * (1 + 12/100)) := by
  unfold gainLaw state_change
  simp only [update_rmax_pid]

lemma gainLaw_action : (gainLaw scaler now aparm s).action = new_action s := by
  unfold gainLaw state_change
  simp only [update_rmax_action]

@[simp] lemma update_rmax_FF_single :
    (update_rmax aparm s).FF_single = s.FF_single := by
  unfold update_rmax; dsimp only
  split <;> first | rfl | (split <;> rfl)

lemma gainLaw_FF_single :
    (gainLaw scaler now aparm s).FF_single = ff_single_of scaler s := by
  unfold gainLaw state_change
  simp only [update_rmax_FF_single]

@[simp] lemma finishEvent_state :
    (finishEvent scaler now aparm s).state = ATState.IDLE := by
  unfold finishEvent; split
  · rfl
  · split
    · rfl
    · exact gainLaw_state now s aparm scaler

lemma finishEvent_restore :
    (finishEvent scaler now aparm s).restore = s.restore := by
  unfold finishEvent gainLaw state_change
  split
  · rfl
  · split
    · rfl
    · simp only [update_rmax_restore]

end Frames

/-! ### Arithmetic facts about the clamps and interpolations -/

lemma constrain_float_mem {lo hi : ℚ} (v : ℚ) (h : lo ≤ hi) :
    lo ≤ constrain_float v lo hi ∧ constrain_float v lo hi ≤ hi := by
  unfold constrain_float
  split_ifs with h1 h2 <;> constructor <;> linarith

lemma constrain_int_mem {lo hi : ℤ} (v : ℤ) (h : lo ≤ hi) :
    lo ≤ constrain_int v lo hi ∧ constrain_int v lo hi ≤ hi := by
  unfold constrain_int
  split_ifs with h1 h2 <;> constructor <;> omega

lemma linear_interpolate_mem (a b x x0 x1 : ℚ) :
    min a b ≤ linear_interpolate a b x x0 x1 ∧
    linear_interpolate a b x x0 x1 ≤ max a b := by
  unfold linear_interpolate
  split_ifs with h1 h2
  · exact ⟨min_le_left _ _, le_max_left _ _⟩
  · exact ⟨min_le_right _ _, le_max_right _ _⟩
  · have hx0 : x0 < x := lt_of_not_le h1
    have hx1 : x < x1 := lt_of_not_le h2
    have hd : (0:ℚ) < x1 - x0 := by linarith
    have ht0 : 0 ≤ (x - x0) / (x1 - x0) := div_nonneg (by linarith) (by linarith)
    have ht1 : (x - x0) / (x1 - x0) ≤ 1 := (div_le_one hd).mpr (by linarith)
    have key : a + (b - a) * (x - x0) / (x1 - x0) = a + (b - a) * ((x - x0) / (x1 - x0)) := by
      ring
    rw [key]
    rcases le_total a b with hab | hab
    · rw [min_eq_left hab, max_eq_right hab]
      constructor
      · nlinarith
      · nlinarith
    · rw [min_eq_right hab, max_eq_left hab]
      constructor
      · nlinarith
      · nlinarith

lemma dmod_mul_mem (x : ℚ) : 4/5 ≤ dmod_mul_of x ∧ dmod_mul_of x ≤ 1 := by
  have h := linear_interpolate_mem (4/5) 1 x (3/5) 1
  unfold dmod_mul_of
  constructor
  · calc (4:ℚ)/5 = min (4/5) 1 := by norm_num
    _ ≤ _ := h.1
  · calc linear_interpolate (4/5) 1 x (3/5) 1 ≤ max (4/5) 1 := h.2
    _ = 1 := by norm_num

lemma overshoot_mul_mem (x : ℚ) : 4/5 ≤ overshoot_mul_of x ∧ overshoot_mul_of x ≤ 1 := by
  have h := linear_interpolate_mem 1 (4/5) x (11/10) ((13/10) * (11/10))
  unfold overshoot_mul_of
  constructor
  · calc (4:ℚ)/5 = min 1 (4/5) := by norm_num
    _ ≤ _ := h.1
  · calc linear_interpolate 1 (4/5) x (11/10) ((13/10) * (11/10)) ≤ max 1 (4/5) := h.2
    _ = 1 := by norm_num

lemma pd_mul_inc_mem (x slew : ℚ) : 1 ≤ pd_mul_inc x slew ∧ pd_mul_inc x slew ≤ 11/10 := by
  have h := linear_interpolate_mem (11/10) 1 x ((1/5) * slew) ((3/5) * slew)
  unfold pd_mul_inc
  constructor
  · calc (1:ℚ) = min (11/10) 1 := by norm_num
    _ ≤ _ := h.1
  · calc linear_interpolate (11/10) 1 x ((1/5) * slew) ((3/5) * slew) ≤ max (11/10) 1 := h.2
    _ = 11/10 := by norm_num

lemma pd_mul_dec_mem (s : TunerSys) : 16/25 ≤ pd_mul_dec s ∧ pd_mul_dec s ≤ 1 := by
  obtain ⟨h1, h2⟩ := dmod_mul_mem s.min_Dmod
  obtain ⟨h3, h4⟩ := overshoot_mul_mem (dem_ratio_of s)
  unfold pd_mul_dec
  constructor
  · nlinarith
  · nlinarith

/-- In the decrease branch the applied multiplier is strictly below 1:
either the slew limiter fired (`min_Dmod < 1`, so `dmod_mul < 1`) or
the event overshot (`dem_ratio > 1.1`, so `overshoot_mul < 1`). -/
lemma pd_mul_dec_lt_one {s : TunerSys} (h : decrease_cond s) : pd_mul_dec s < 1 := by
  obtain ⟨hd1, hd2⟩ := dmod_mul_mem s.min_Dmod
  obtain ⟨ho1, ho2⟩ := overshoot_mul_mem (dem_ratio_of s)
  unfold pd_mul_dec
  rcases h with h | ⟨h, -⟩
  · have hlt : dmod_mul_of s.min_Dmod < 1 := by
      unfold dmod_mul_of linear_interpolate
      split_ifs with h1 h2
      · norm_num
      · linarith
      · have hx0 : (3:ℚ)/5 < s.min_Dmod := lt_of_not_le h1
        have ht : (s.min_Dmod - 3/5) / (1 - 3/5) < 1 := by
          rw [div_lt_one (by norm_num : (0:ℚ) < 1 - 3/5)]
          linarith
        rw [mul_div_assoc]
        linarith
    nlinarith
  · have hlt : overshoot_mul_of (dem_ratio_of s) < 1 := by
      unfold overshoot_mul_of linear_interpolate
      split_ifs with h1 h2
      · linarith
      · norm_num
      · have hx0 : (11:ℚ)/10 < dem_ratio_of s := lt_of_not_le h1
        have hd : (0:ℚ) < (13/10) * (11/10) - 11/10 := by norm_num
        have ht : (0:ℚ) < (dem_ratio_of s - 11/10) / ((13/10) * (11/10) - 11/10) :=
          div_pos (by linarith) hd
        rw [mul_div_assoc]
        linarith
    nlinarith

lemma tuning_table_tau_mem (k : ℕ) :
    1/10 ≤ (tuning_table k).1 ∧ (tuning_table k).1 ≤ 1 := by
  match k with
  | 0 => exact ⟨by norm_num [tuning_table], by norm_num [tuning_table]⟩
  | 1 => exact ⟨by norm_num [tuning_table], by norm_num [tuning_table]⟩
  | 2 => exact ⟨by norm_num [tuning_table], by norm_num [tuning_table]⟩
  | 3 => exact ⟨by norm_num [tuning_table], by norm_num [tuning_table]⟩
  | 4 => exact ⟨by norm_num [tuning_table], by norm_num [tuning_table]⟩
  | 5 => exact ⟨by norm_num [tuning_table], by norm_num [tuning_table]⟩
  | 6 => exact ⟨by norm_num [tuning_table], by norm_num [tuning_table]⟩
  | 7 => exact ⟨by norm_num [tuning_table], by norm_num [tuning_table]⟩
  | 8 => exact ⟨by norm_num [tuning_table], by norm_num [tuning_table]⟩
  | 9 => exact ⟨by norm_num [tuning_table], by norm_num [tuning_table]⟩
  | (n+10) =>
      exact ⟨by norm_num [show tuning_table (n+10) = (1/10, 300) from rfl],
             by norm_num [show tuning_table (n+10) = (1/10, 300) from rfl]⟩

/-- With positive level, positive FF and nonnegative I, the
tau-inflation step is the identity on the tau target. -/
lemma tau_target_eq_base (level : ℕ) (s : TunerSys)
    (hl : 0 < level) (hFF : 0 < s.current.FF) (hI : 0 ≤ s.current.I) :
    tau_target level s = tau_target_base level s := by
  have hbase : 1/10 ≤ tau_target_base level s := by
    unfold tau_target_base
    rw [if_neg (Nat.pos_iff_ne_zero.mp hl)]
    exact (tuning_table_tau_mem (level - 1)).1
  have ht0 : 0 < tau_target_base level s := lt_of_lt_of_le (by norm_num) hbase
  unfold tau_target
  rw [if_pos ⟨hl, hFF⟩]
  have hdiv : 0 ≤ s.current.I / s.current.FF := div_nonneg hI hFF.le
  have hinv0 : 0 < 1 / tau_target_base level s := by positivity
  have hinv : 0 < 1 / tau_target_base level s + s.current.I / s.current.FF := by linarith
  rw [if_pos hinv]
  refine max_eq_left ?_
  have h1 : 1 / tau_target_base level s ≤
      1 / tau_target_base level s + s.current.I / s.current.FF := by linarith
  calc 1 / (1 / tau_target_base level s + s.current.I / s.current.FF)
      ≤ 1 / (1 / tau_target_base level s) := one_div_le_one_div_of_le hinv0 h1
    _ = tau_target_base level s := one_div_one_div _

/-- The tau target always lies in [0.1, 2] when I is nonnegative. -/
lemma tau_target_mem (level : ℕ) (u : TunerSys) (hI : 0 ≤ u.current.I) :
    1/10 ≤ tau_target level u ∧ tau_target level u ≤ 2 := by
  have hbase : 1/10 ≤ tau_target_base level u ∧ tau_target_base level u ≤ 2 := by
    unfold tau_target_base
    split_ifs with h
    · exact constrain_float_mem u.current.tau (by norm_num)
    · have hm := tuning_table_tau_mem (level - 1)
      exact ⟨hm.1, le_trans hm.2 (by norm_num)⟩
  by_cases hc : 0 < level ∧ 0 < u.current.FF
  · rw [tau_target_eq_base level u hc.1 hc.2 hI]
    exact hbase
  · unfold tau_target
    rw [if_neg hc]
    exact hbase

/-- The tau slew in `update_rmax` preserves `tau ∈ [0.1, 2]` when I
is nonnegative. -/
lemma update_rmax_tau_mem (aparm : FWParams) (u : TunerSys) (hI : 0 ≤ u.current.I)
    (h1 : 1/10 ≤ u.current.tau) (h2 : u.current.tau ≤ 2) :
    1/10 ≤ (update_rmax aparm u).current.tau ∧
    (update_rmax aparm u).current.tau ≤ 2 := by
  rw [update_rmax_tau]
  have ht := tau_target_mem (level_of aparm) u hI
  unfold constrain_float
  split_ifs with ha hb
  · constructor
    · linarith [ht.1]
    · linarith
  · constructor
    · linarith
    · linarith [ht.2]
  · exact ht

/-- Per-phase frame facts about `start`, composed below. -/
lemma start_main_facts (aparm : FWParams) (now : ℕ) (s : TunerSys) :
    (start_main aparm now s).pid.P = s.pid.P ∧
    (start_main aparm now s).pid.D = s.pid.D ∧
    (start_main aparm now s).pid.FF = s.pid.FF ∧
    (start_main aparm now s).pid.IMAX = constrain_float s.pid.IMAX (2/5) (9/10) ∧
    (start_main aparm now s).current.FF = s.pid.FF ∧
    (start_main aparm now s).restore = get_gains s.pid s.current ∧
    (start_main aparm now s).running = true := by
  unfold start_main
  dsimp only
  refine ⟨?_, ?_, ?_, ?_, ?_, ?_, ?_⟩ <;>
    simp only [update_rmax_pid, update_rmax_current_FF, update_rmax_restore,
      update_rmax_running, get_gains]

lemma start_slew_facts (t : TunerSys) :
    (start_slew t).pid.P = t.pid.P ∧
    (start_slew t).pid.D = t.pid.D ∧
    (start_slew t).pid.FF = t.pid.FF ∧
    (start_slew t).pid.IMAX = t.pid.IMAX ∧
    (start_slew t).current = t.current ∧
    (start_slew t).restore = t.restore ∧
    (start_slew t).running = t.running := by
  unfold start_slew
  split <;> exact ⟨rfl, rfl, rfl, rfl, rfl, rfl, rfl⟩

lemma start_ff_floor_facts (t : TunerSys) :
    (start_ff_floor t).pid.P = t.pid.P ∧
    (start_ff_floor t).pid.D = t.pid.D ∧
    (start_ff_floor t).pid.IMAX = t.pid.IMAX ∧
    (start_ff_floor t).restore = t.restore ∧
    (start_ff_floor t).running = t.running := by
  unfold start_ff_floor
  split <;> exact ⟨rfl, rfl, rfl, rfl, rfl⟩

/-- After the FF floor, the PID FF is at least 0.01 provided the
`current` snapshot mirrors the PID FF on entry. -/
lemma start_ff_floor_FF_ge {t : TunerSys} (h : t.current.FF = t.pid.FF) :
    1/100 ≤ (start_ff_floor t).pid.FF := by
  unfold start_ff_floor
  split
  · norm_num
  · rename_i hc
    rw [h] at hc
    linarith [le_of_not_lt hc]

/-- `start` leaves the PID P gain untouched. -/
lemma start_pid_P (aparm : FWParams) (now : ℕ) (s : TunerSys) :
    (start aparm now s).pid.P = s.pid.P := by
  unfold start
  rw [(start_ff_floor_facts _).1, (start_slew_facts _).1, (start_main_facts aparm now s).1]

/-- `start` leaves the PID D gain untouched. -/
lemma start_pid_D (aparm : FWParams) (now : ℕ) (s : TunerSys) :
    (start aparm now s).pid.D = s.pid.D := by
  unfold start
  rw [(start_ff_floor_facts _).2.1, (start_slew_facts _).2.1,
      (start_main_facts aparm now s).2.1]

/-- After `start`, the PID IMAX is the entry value clamped to
[0.4, 0.9]. -/
lemma start_pid_IMAX (aparm : FWParams) (now : ℕ) (s : TunerSys) :
    (start aparm now s).pid.IMAX = constrain_float s.pid.IMAX (2/5) (9/10) := by
  unfold start
  rw [(start_ff_floor_facts _).2.2.1, (start_slew_facts _).2.2.2.1,
      (start_main_facts aparm now s).2.2.2.1]

/-- After `start`, the PID FF is at least 0.01. -/
lemma start_pid_FF_ge (aparm : FWParams) (now : ℕ) (s : TunerSys) :
    1/100 ≤ (start aparm now s).pid.FF := by
  unfold start
  refine start_ff_floor_FF_ge ?_
  rw [show (start_slew (start_main aparm now s)).current =
        (start_main aparm now s).current from (start_slew_facts _).2.2.2.2.1,
      (start_slew_facts _).2.2.1,
      (start_main_facts aparm now s).2.2.2.2.1,
      (start_main_facts aparm now s).2.2.1]

/-- After `start`, `restore` holds the gains captured from the live
PID. -/
lemma start_restore (aparm : FWParams) (now : ℕ) (s : TunerSys) :
    (start aparm now s).restore = get_gains s.pid s.current := by
  unfold start
  rw [(start_ff_floor_facts _).2.2.2.1, (start_slew_facts _).2.2.2.2.2.1,
      (start_main_facts aparm now s).2.2.2.2.2.1]

/-- `start` leaves the tuner running. -/
lemma start_running (aparm : FWParams) (now : ℕ) (s : TunerSys) :
    (start aparm now s).running = true := by
  unfold start
  rw [(start_ff_floor_facts _).2.2.2.2, (start_slew_facts _).2.2.2.2.2.2,
      (start_main_facts aparm now s).2.2.2.2.2.2]

/-- `stop` on an already stopped tuner is a no-op. -/
lemma stop_not_running {s : TunerSys} (h : s.running = false) : stop s = s := by
  have hneg : ¬ (s.running = true) := by rw [h]; exact Bool.false_ne_true
  unfold stop
  rw [if_neg hneg]

/-- `stop` on a running tuner clears the running flag. -/
lemma stop_running_false {s : TunerSys} (h : s.running = true) :
    (stop s).running = false := by
  unfold stop
  rw [if_pos h]
  rfl

/-- Every path through `update` either leaves the PID FF untouched or
writes the clamp of some value to `[0.85 old, 1.12 old]`. -/
lemma update_pid_FF_cases (inp : PIDInfo) (scaler angle_err_deg : ℚ) (now : ℕ)
    (aparm : FWParams) (t : TunerSys) :
    (update inp scaler angle_err_deg now aparm t).pid.FF = t.pid.FF ∨
    ∃ v, (update inp scaler angle_err_deg now aparm t).pid.FF =
      constrain_float v (t.pid.FF * (1 - 15/100)) (t.pid.FF * (1 + 12/100)) := by
  unfold update
  split
  · exact Or.inl rfl
  · dsimp only
    split
    · exact Or.inl
        (by simp only [idle_lower_pid_FF, log_step_pid, cond_state_pid, check_save_pid_FF])
    · split
      · exact Or.inl
          (by simp only [enter_event_pid, log_step_pid, cond_state_pid, check_save_pid_FF])
      · unfold finishEvent
        split
        · exact Or.inl
            (by simp only [state_change_pid, log_step_pid, cond_state_pid, check_save_pid_FF])
        · split
          · exact Or.inl
              (by simp only [state_change_pid, log_step_pid, cond_state_pid, check_save_pid_FF])
          · refine Or.inr
              ⟨((log_step now (cond_state inp (check_save now t))).ff_filter.push
                  (ff_single_of scaler
                    (log_step now (cond_state inp (check_save now t))))).out, ?_⟩
            rw [gainLaw_pid_FF]
            simp only [log_step_pid, cond_state_pid, check_save_pid_FF]

/-! ### The claims -/

/-- Claim C9: a call to `update` while `running` is false is a
complete no-op: the returned system equals the input system, so no
tuner field, PID gain, parameter-store write counter or log counter
changes. -/
theorem update_not_running_noop (inp : PIDInfo) (scaler angle_err_deg : ℚ)
    (now : ℕ) (aparm : FWParams) (s : TunerSys) (h : s.running = false) :
    update inp scaler angle_err_deg now aparm s = s := by
  unfold update
  rw [if_pos h]

theorem update_not_running_noop_witness :
    update inp0 1 0 50 aparm0 sysNR = sysNR :=
  update_not_running_noop inp0 1 0 50 aparm0 sysNR rfl

/-- Claim C8: `check_save` is a full no-op (in particular no store
write and no snapshot rotation) while fewer than SAVE_PERIOD =
10000 ms have elapsed since `last_save_ms` under 32-bit modular
subtraction; whenever it does issue store writes, at least 10000 ms
have elapsed and `last_save_ms` is reset to `now`, so consecutive
write bursts are at least 10000 ms apart. -/
theorem check_save_period (now : ℕ) (s : TunerSys) :
    (sub32 now s.last_save_ms < 10000 → check_save now s = s) ∧
    (¬ sub32 now s.last_save_ms < 10000 → (check_save now s).last_save_ms = now) ∧
    ((check_save now s).store_writes ≠ s.store_writes →
      10000 ≤ sub32 now s.last_save_ms ∧ (check_save now s).last_save_ms = now) := by
  refine ⟨?_, ?_, ?_⟩
  · intro h
    unfold check_save
    rw [if_pos h]
  · intro h
    unfold check_save
    rw [if_neg h]
  · intro h
    by_cases hc : sub32 now s.last_save_ms < 10000
    · exfalso
      apply h
      unfold check_save
      rw [if_pos hc]
    · refine ⟨le_of_not_lt hc, ?_⟩
      unfold check_save
      rw [if_neg hc]

theorem check_save_period_witness :
    check_save 500 sys0 = sys0 ∧ (check_save 20000 sys0).last_save_ms = 20000 :=
  ⟨(check_save_period 500 sys0).1 (by decide),
   (check_save_period 20000 sys0).2.1 (by decide)⟩

/-- Claim C10: in `update_rmax`, whenever the clamped level is
positive, FF is positive and I is nonnegative, the tau-inflation step
leaves the tau target unchanged (since `invtau = 1/target_tau + I/FF ≥
1/target_tau`, so `1/invtau ≤ target_tau`); and for any state the
inflation step never lowers the target, so it can only change it when
I is negative. -/
theorem tau_inflation_noop (level : ℕ) (s t : TunerSys)
    (hl : 0 < level) (hFF : 0 < s.current.FF) (hI : 0 ≤ s.current.I) :
    tau_target level s = tau_target_base level s ∧
    tau_target_base level t ≤ tau_target level t := by
  constructor
  · exact tau_target_eq_base level s hl hFF hI
  · unfold tau_target
    dsimp only
    split_ifs with h1 h2
    · exact le_max_left _ _
    · exact le_refl _
    · exact le_refl _

theorem tau_inflation_noop_witness :
    tau_target 5 sys0 = tau_target_base 5 sys0 ∧
    tau_target_base 5 sys0 ≤ tau_target 5 sys0 :=
  tau_inflation_noop 5 sys0 sys0 (by norm_num)
    (by norm_num [sys0, gains0]) (by norm_num [sys0, gains0])

/-- Claim C2: after `start` the PID FF gain is at least 0.01, and a
single `update` — whatever path it takes — changes the PID FF by at
most 15% relative (and keeps it positive) whenever FF is positive on
entry, because the median-filtered FF estimate is clamped to
`[old_FF*(1-0.15), old_FF*(1+0.12)]` against the live FF. -/
theorem ff_floor_and_bounded_change (aparm : FWParams) (now : ℕ) (inp : PIDInfo)
    (scaler angle_err_deg : ℚ) (s t : TunerSys) (h : 0 < t.pid.FF) :
    1/100 ≤ (start aparm now s).pid.FF ∧
    |(update inp scaler angle_err_deg now aparm t).pid.FF - t.pid.FF| / t.pid.FF
      ≤ 15/100 ∧
    0 < (update inp scaler angle_err_deg now aparm t).pid.FF := by
  have hup : |(update inp scaler angle_err_deg now aparm t).pid.FF - t.pid.FF|
      ≤ (15/100) * t.pid.FF ∧
      0 < (update inp scaler angle_err_deg now aparm t).pid.FF := by
    obtain hc | ⟨v, hv⟩ := update_pid_FF_cases inp scaler angle_err_deg now aparm t
    · rw [hc]
      constructor
      · rw [sub_self, abs_zero]
        linarith
      · exact h
    · have hlohi : t.pid.FF * (1 - 15/100) ≤ t.pid.FF * (1 + 12/100) := by linarith
      obtain ⟨hlo, hhi⟩ := constrain_float_mem v hlohi
      rw [hv]
      constructor
      · rw [abs_le]
        constructor <;> linarith
      · linarith
  refine ⟨start_pid_FF_ge aparm now s, ?_, hup.2⟩
  rw [div_le_iff₀ h]
  exact hup.1

theorem ff_floor_and_bounded_change_witness :
    1/100 ≤ (start aparm0 7 sys0).pid.FF ∧
    |(update inp0 1 0 7 aparm0 sys0).pid.FF - sys0.pid.FF| / sys0.pid.FF
      ≤ 15/100 ∧
    0 < (update inp0 1 0 7 aparm0 sys0).pid.FF :=
  ff_floor_and_bounded_change aparm0 7 inp0 1 0 sys0 sys0
    (by norm_num [sys0, pid0])

/-- Claim C1: `stop` on a running tuner pushes the `restore` snapshot
into the PID gains and into `current`; it is idempotent, and a second
consecutive `stop` changes nothing.  `restore` itself is only ever
written by `start` (to the gains captured from the live PID) and by a
firing `check_save` (to the pending `next_save`); `stop`, a
non-firing `check_save` and the rest of `update` leave it alone — so
after any `stop` the PID holds the `next_save` pushed at the most
recent `check_save` boundary, or the `start`-captured gains when no
boundary occurred. -/
theorem stop_restore_semantics (inp : PIDInfo) (scaler angle_err_deg : ℚ)
    (now : ℕ) (aparm : FWParams) (s : TunerSys) :
    (s.running = true →
      gains_match (stop s).pid s.restore ∧
      (stop s).current = s.restore ∧ (stop s).running = false) ∧
    stop (stop s) = stop s ∧
    (s.running = false → stop s = s) ∧
    (stop s).restore = s.restore ∧
    (sub32 now s.last_save_ms < 10000 → check_save now s = s) ∧
    (¬ sub32 now s.last_save_ms < 10000 → (check_save now s).restore = s.next_save) ∧
    (start aparm now s).restore = get_gains s.pid s.current ∧
    (s.running = true →
      (update inp scaler angle_err_deg now aparm s).restore =
        (check_save now s).restore) := by
  refine ⟨?_, ?_, ?_, ?_, ?_, ?_, ?_, ?_⟩
  · intro h
    unfold stop
    rw [if_pos h]
    exact ⟨⟨rfl, rfl, rfl, rfl, rfl⟩, rfl, rfl⟩
  · by_cases hr : s.running = true
    · exact stop_not_running (stop_running_false hr)
    · rw [stop_not_running (Bool.not_eq_true _ |>.mp hr),
          stop_not_running (Bool.not_eq_true _ |>.mp hr)]
  · exact fun h => stop_not_running h
  · by_cases hr : s.running = true
    · unfold stop
      rw [if_pos hr]
      rfl
    · rw [stop_not_running (Bool.not_eq_true _ |>.mp hr)]
  · intro h
    unfold check_save
    rw [if_pos h]
  · intro h
    unfold check_save
    rw [if_neg h]
    rfl
  · exact start_restore aparm now s
  · intro h
    have hneg : ¬ (s.running = false) := by simp [h]
    unfold update
    rw [if_neg hneg]
    dsimp only
    split
    · simp only [idle_lower_restore, log_step_restore, cond_state_restore]
    · split
      · simp only [enter_event_restore, log_step_restore, cond_state_restore]
      · rw [finishEvent_restore]
        simp only [log_step_restore, cond_state_restore]

theorem stop_restore_semantics_witness :
    (gains_match (stop sys0).pid sys0.restore ∧
      (stop sys0).current = sys0.restore ∧ (stop sys0).running = false) ∧
    stop (stop sys0) = stop sys0 ∧
    (update inp0 1 0 50 aparm0 sys0).restore = (check_save 50 sys0).restore := by
  have h := stop_restore_semantics inp0 1 0 50 aparm0 sys0
  exact ⟨h.1 rfl, h.2.1, h.2.2.2.2.2.2.2 rfl⟩

/-- Claim C5: in any running `update` step starting from DEMAND_POS
the next state is IDLE exactly when the filtered target drops below
`rate_threshold2`, and DEMAND_POS otherwise — never DEMAND_NEG; and
symmetrically from DEMAND_NEG.  Hence every transition passes through
IDLE and DEMAND_POS ↔ DEMAND_NEG is impossible in a single step. -/
theorem state_transitions_only_via_idle (inp : PIDInfo) (scaler angle_err_deg : ℚ)
    (now : ℕ) (aparm : FWParams) (s : TunerSys) (hrun : s.running = true) :
    (s.state = ATState.DEMAND_POS →
      (update inp scaler angle_err_deg now aparm s).state =
        (if desired_rate_of inp s < rate_threshold2 aparm s
         then ATState.IDLE else ATState.DEMAND_POS)) ∧
    (s.state = ATState.DEMAND_NEG →
      (update inp scaler angle_err_deg now aparm s).state =
        (if desired_rate_of inp s > -(rate_threshold2 aparm s)
         then ATState.IDLE else ATState.DEMAND_NEG)) := by
  have hneg : ¬ (s.running = false) := by simp [hrun]
  unfold update
  rw [if_neg hneg]
  dsimp only
  constructor
  · intro hst
    simp only [check_save_state, check_save_desired, check_save_thr1, check_save_thr2, hst]
    unfold next_state
    dsimp only
    by_cases hd : desired_rate_of inp s < rate_threshold2 aparm s
    · simp only [if_pos hd]
      rw [if_neg (show ¬ (ATState.IDLE = ATState.DEMAND_POS) by decide),
          if_neg (show ¬ (ATState.IDLE ≠ ATState.IDLE) by decide)]
      rw [finishEvent_state]
    · simp only [if_neg hd]
      simp only [if_true, idle_lower_state, log_step_state, cond_state_state,
        check_save_state, hst]
  · intro hst
    simp only [check_save_state, check_save_desired, check_save_thr1, check_save_thr2, hst]
    unfold next_state
    dsimp only
    by_cases hd : desired_rate_of inp s > -(rate_threshold2 aparm s)
    · simp only [if_pos hd]
      rw [if_neg (show ¬ (ATState.IDLE = ATState.DEMAND_NEG) by decide),
          if_neg (show ¬ (ATState.IDLE ≠ ATState.IDLE) by decide)]
      rw [finishEvent_state]
    · simp only [if_neg hd]
      simp only [if_true, idle_lower_state, log_step_state, cond_state_state,
        check_save_state, hst]

theorem state_transitions_only_via_idle_witness :
    (update inp0 1 0 50 aparm0 sysPos).state =
      (if desired_rate_of inp0 sysPos < rate_threshold2 aparm0 sysPos
       then ATState.IDLE else ATState.DEMAND_POS) :=
  (state_transitions_only_via_idle inp0 1 0 50 aparm0 sysPos rfl).1 rfl

/-- Claim C3 counterexample: the bounds are not established by every
call: `start` captures the live PID gains without flooring P (or D),
so a tuner started on a PID with `P = 0` is running with `P = 0 <
0.01` after the call. -/
theorem gain_bounds_cex :
    (start aparm0 5 sysP0).running = true ∧
    ¬ (1/100 ≤ (start aparm0 5 sysP0).pid.P) := by
  constructor
  · exact start_running aparm0 5 sysP0
  · rw [start_pid_P]
    norm_num [sysP0, sys0, pid0]

/-- Claim C3 amended: the stated bounds hold as follows. After
`start` the PID IMAX lies in [0.4, 0.9].  P and D are floored to 0.01
and 0.0005 inside the gain law, but then multiplied by a factor in
[0.64, 1.1], so after an event-completing update the written gains
satisfy `P ≥ 0.64·0.01` and `D ≥ 0.64·0.0005` (not the claimed
floors).  `update_rmax` preserves `tau ∈ [0.1, 2]` whenever the
current I gain is nonnegative.  None of the bounds is established
from arbitrary initial gains by `start`. -/
theorem gain_bounds_amended (aparm : FWParams) (now : ℕ) (scaler : ℚ)
    (s t u : TunerSys) (hI : 0 ≤ u.current.I)
    (htau1 : 1/10 ≤ u.current.tau) (htau2 : u.current.tau ≤ 2) :
    (2/5 ≤ (start aparm now s).pid.IMAX ∧ (start aparm now s).pid.IMAX ≤ 9/10) ∧
    (4/625 ≤ (gainLaw scaler now aparm t).pid.P) ∧
    (1/3125 ≤ (gainLaw scaler now aparm t).pid.D) ∧
    (1/10 ≤ (update_rmax aparm u).current.tau ∧
      (update_rmax aparm u).current.tau ≤ 2) := by
  refine ⟨?_, ?_, ?_, update_rmax_tau_mem aparm u hI htau1 htau2⟩
  · rw [start_pid_IMAX]
    exact constrain_float_mem s.pid.IMAX (by norm_num)
  · rw [gainLaw_pid_P]
    simp only [newP]
    have hP0 : (1:ℚ)/100 ≤ max t.pid.P (1/100) := le_max_right _ _
    split_ifs with h1 h2
    · linarith
    · have hm := pd_mul_dec_mem t
      calc (4:ℚ)/625 = (1/100) * (16/25) := by norm_num
        _ ≤ max t.pid.P (1/100) * pd_mul_dec t :=
          mul_le_mul hP0 hm.1 (by norm_num) (by linarith)
    · have hm := pd_mul_inc_mem t.max_SRate t.pid.slew_limit
      calc (4:ℚ)/625 ≤ (1/100) * 1 := by norm_num
        _ ≤ max t.pid.P (1/100) * pd_mul_inc t.max_SRate t.pid.slew_limit :=
          mul_le_mul hP0 hm.1 (by norm_num) (by linarith)
  · rw [gainLaw_pid_D]
    simp only [newD]
    have hD0 : (1:ℚ)/2000 ≤ max t.pid.D (1/2000) := le_max_right _ _
    split_ifs with h1 h2
    · have hm := pd_mul_dec_mem t
      calc (1:ℚ)/3125 = (1/2000) * (16/25) := by norm_num
        _ ≤ max t.pid.D (1/2000) * pd_mul_dec t :=
          mul_le_mul hD0 hm.1 (by norm_num) (by linarith)
    · linarith
    · have hm := pd_mul_inc_mem t.max_SRate t.pid.slew_limit
      calc (1:ℚ)/3125 ≤ (1/2000) * 1 := by norm_num
        _ ≤ max t.pid.D (1/2000) * pd_mul_inc t.max_SRate t.pid.slew_limit :=
          mul_le_mul hD0 hm.1 (by norm_num) (by linarith)

theorem gain_bounds_amended_witness :
    (2/5 ≤ (start aparm0 7 sys0).pid.IMAX ∧ (start aparm0 7 sys0).pid.IMAX ≤ 9/10) ∧
    (4/625 ≤ (gainLaw 1 1000 aparm0 sysPos).pid.P) ∧
    (1/3125 ≤ (gainLaw 1 1000 aparm0 sysPos).pid.D) ∧
    (1/10 ≤ (update_rmax aparm0 sys0).current.tau ∧
      (update_rmax aparm0 sys0).current.tau ≤ 2) :=
  gain_bounds_amended aparm0 7 1 sys0 sysPos sys0
    (by norm_num [sys0, gains0]) (by norm_num [sys0, gains0]) (by norm_num [sys0, gains0])

/-- Claim C6 counterexample: on entry with `rmax_pos = 0`,
`update_rmax` first defaults it to 75 and slews relative to 75, so the
value jumps from 0 to 75 in one invocation, violating
`|rmax_new - rmax_old| ≤ 20` as stated for entry values. -/
theorem update_rmax_slew_cex :
    ¬ |(update_rmax aparm0 sysC6).current.rmax_pos - sysC6.current.rmax_pos| ≤ 20 := by
  norm_num [update_rmax, level_of, rmax_target, tau_target, tau_target_base,
    tuning_table, constrain_int, constrain_float, aparm0, sysC6, sys0, gains0]

/-- Claim C6 amended: per `update_rmax` invocation, if `rmax_pos` is
nonzero on entry then `|rmax_new - rmax_old| ≤ 20`; if it is zero it
is first defaulted to 75 and lands in [55, 95]; and whenever `tau` is
nonnegative on entry, `tau_new ∈ [0.85 tau_old, 1.15 tau_old]`. -/
theorem update_rmax_slew_amended (aparm : FWParams) (s : TunerSys) :
    (s.current.rmax_pos ≠ 0 →
      |(update_rmax aparm s).current.rmax_pos - s.current.rmax_pos| ≤ 20) ∧
    (s.current.rmax_pos = 0 →
      55 ≤ (update_rmax aparm s).current.rmax_pos ∧
      (update_rmax aparm s).current.rmax_pos ≤ 95) ∧
    (0 ≤ s.current.tau →
      s.current.tau * (17/20) ≤ (update_rmax aparm s).current.tau ∧
      (update_rmax aparm s).current.tau ≤ s.current.tau * (23/20)) := by
  refine ⟨?_, ?_, ?_⟩
  · intro h
    rw [update_rmax_rmax_pos, if_neg h]
    have hm := @constrain_int_mem (s.current.rmax_pos - 20)
      (s.current.rmax_pos + 20) (rmax_target (level_of aparm) s) (by omega)
    rw [abs_le]
    omega
  · intro h
    rw [update_rmax_rmax_pos, if_pos h]
    have hm := @constrain_int_mem ((75:ℤ) - 20) ((75:ℤ) + 20)
      (rmax_target (level_of aparm) s) (by omega)
    omega
  · intro h
    rw [update_rmax_tau]
    exact constrain_float_mem _ (by nlinarith)

/-- Claim C4 counterexample: a positive-demand event that passes both
the low-rate guard and the too-short guard can still reach the
single-event FF computation with a zero denominator, because the
guards never look at `scaler`: with `scaler = 0` the denominator
`max_rate * scaler` is 0 and the source divides by zero (here, the
rational model records `FF_single = 0`). -/
theorem ff_denominator_zero_cex :
    ¬ low_rate_event sysPos ∧
    ¬ sub32 1000 sysPos.state_enter_ms < 100 ∧
    event_denominator 0 sysPos = 0 ∧
    (finishEvent 0 1000 aparm0 sysPos).FF_single = 0 := by
  have h1 : ¬ low_rate_event sysPos := by
    norm_num [low_rate_event, sysPos, sys0, gains0]
    decide
  have h2 : ¬ sub32 1000 sysPos.state_enter_ms < 100 := by decide
  have h3 : event_denominator 0 sysPos = 0 := by
    norm_num [event_denominator, sysPos, sys0]
  refine ⟨h1, h2, h3, ?_⟩
  unfold finishEvent
  rw [if_neg h1, if_neg h2, gainLaw_FF_single]
  simp [ff_single_of, h3]

/-- Claim C4 amended: for a completed demand event that passes the
low-rate guard, the FF denominator is nonzero provided `scaler ≠ 0`
and the corresponding rate envelope parameter is positive (the
DEMAND_POS guard forces `max_rate ≥ 0.01 rmax_pos > 0`, the
DEMAND_NEG guard forces `min_rate ≤ -0.01 rmax_neg < 0`); with
`scaler = 0` or a nonpositive envelope the guards do not prevent a
zero denominator. -/
theorem ff_denominator_nonzero_amended (s : TunerSys) (scaler : ℚ)
    (hnl : ¬ low_rate_event s) (hsc : scaler ≠ 0) :
    (s.state = ATState.DEMAND_POS → 0 < s.current.rmax_pos →
      event_denominator scaler s ≠ 0) ∧
    (s.state = ATState.DEMAND_NEG → 0 < s.current.rmax_neg →
      event_denominator scaler s ≠ 0) := by
  constructor
  · intro hst hr
    unfold event_denominator
    rw [if_pos hst]
    have hmr : (1/100) * (s.current.rmax_pos : ℚ) ≤ s.max_rate := by
      by_contra hc
      exact hnl (Or.inl ⟨hst, lt_of_not_le hc⟩)
    have hrq : (0:ℚ) < (s.current.rmax_pos : ℚ) := by exact_mod_cast hr
    have hpos : 0 < s.max_rate := lt_of_lt_of_le (by linarith) hmr
    exact mul_ne_zero (ne_of_gt hpos) hsc
  · intro hst hr
    unfold event_denominator
    rw [if_neg (by rw [hst]; exact fun hcon => ATState.noConfusion hcon)]
    have hmr : s.min_rate ≤ -((1/100) * (s.current.rmax_neg : ℚ)) := by
      by_contra hc
      exact hnl (Or.inr ⟨hst, lt_of_not_le hc⟩)
    have hrq : (0:ℚ) < (s.current.rmax_neg : ℚ) := by exact_mod_cast hr
    have hneg : s.min_rate < 0 := lt_of_le_of_lt hmr (by linarith)
    exact mul_ne_zero (ne_of_lt hneg) hsc

theorem ff_denominator_nonzero_amended_witness :
    event_denominator 1 sysPos ≠ 0 :=
  (ff_denominator_nonzero_amended sysPos 1
    (by norm_num [low_rate_event, sysPos, sys0, gains0]; decide) (by norm_num)).1
    rfl (by norm_num [sysPos, sys0, gains0])

/-- Claim C7 counterexample: a dominant-D decrease-branch event with
the live P gain below its 0.01 floor does reduce D, but it does not
leave P unchanged: P is written back at its floor
(`max(P, 0.01) = 0.01 ≠ 0.005`). -/
theorem lower_pd_other_gain_cex :
    decrease_cond sysC7 ∧ sysC7.max_P < sysC7.max_D ∧
    (gainLaw 1 1000 aparm0 sysC7).action = Action.LOWER_PD ∧
    (gainLaw 1 1000 aparm0 sysC7).pid.P ≠ sysC7.pid.P := by
  have hdec : decrease_cond sysC7 := Or.inl (by norm_num [sysC7, sysPos, sys0])
  have hpd : sysC7.max_P < sysC7.max_D := by norm_num [sysC7, sysPos, sys0]
  refine ⟨hdec, hpd, ?_, ?_⟩
  · rw [gainLaw_action]
    unfold new_action
    rw [if_pos hdec]
  · rw [gainLaw_pid_P]
    simp only [newP]
    rw [if_pos hdec, if_pos hpd]
    norm_num [sysC7, sysPos, sys0, pid0]

/-- Claim C7 amended: the decrease branch is taken iff `min_Dmod <
1.0` or (`dem_ratio > 1.1` and P or D peaked above 30% of the
actuator); in it, both gains are first floored (P to 0.01, D to
0.0005), then exactly the gain that peaked higher (P on ties) is
scaled by `dmod_mul * overshoot_mul < 1`, while the other gain is
written back at its floored value — unchanged only when it already
met its floor. -/
theorem lower_pd_amended (scaler : ℚ) (now : ℕ) (aparm : FWParams) (s : TunerSys) :
    ((gainLaw scaler now aparm s).action = Action.LOWER_PD ↔ decrease_cond s) ∧
    (decrease_cond s → pd_mul_dec s < 1 ∧
      (s.max_P < s.max_D →
        (gainLaw scaler now aparm s).pid.D = max s.pid.D (1/2000) * pd_mul_dec s ∧
        (gainLaw scaler now aparm s).pid.P = max s.pid.P (1/100)) ∧
      (¬ s.max_P < s.max_D →
        (gainLaw scaler now aparm s).pid.P = max s.pid.P (1/100) * pd_mul_dec s ∧
        (gainLaw scaler now aparm s).pid.D = max s.pid.D (1/2000))) := by
  rw [gainLaw_action, gainLaw_pid_P, gainLaw_pid_D]
  constructor
  · unfold new_action
    split_ifs with h
    · exact iff_of_true rfl h
    · exact iff_of_false (by decide) h
  · intro hdec
    refine ⟨pd_mul_dec_lt_one hdec, ?_, ?_⟩
    · intro hpd
      simp only [newP, newD]
      rw [if_pos hdec, if_pos hdec, if_pos hpd, if_pos hpd]
      exact ⟨rfl, rfl⟩
    · intro hpd
      simp only [newP, newD]
      rw [if_pos hdec, if_pos hdec, if_neg hpd, if_neg hpd]
      exact ⟨rfl, rfl⟩

theorem lower_pd_amended_witness :
    pd_mul_dec sysC7 < 1 ∧
    (gainLaw 1 1000 aparm0 sysC7).pid.D = max sysC7.pid.D (1/2000) * pd_mul_dec sysC7 ∧
    (gainLaw 1 1000 aparm0 sysC7).pid.P = max sysC7.pid.P (1/100) := by
  have h := (lower_pd_amended 1 1000 aparm0 sysC7).2
    (Or.inl (by norm_num [sysC7, sysPos, sys0]))
  have hpd : sysC7.max_P < sysC7.max_D := by norm_num [sysC7, sysPos, sys0]
  exact ⟨h.1, (h.2.1 hpd).1, (h.2.1 hpd).2⟩

theorem update_rmax_slew_amended_witness :
    |(update_rmax aparm0 sys0).current.rmax_pos - sys0.current.rmax_pos| ≤ 20 ∧
    (sys0.current.tau * (17/20) ≤ (update_rmax aparm0 sys0).current.tau ∧
      (update_rmax aparm0 sys0).current.tau ≤ sys0.current.tau * (23/20)) :=
  ⟨(update_rmax_slew_amended aparm0 sys0).1 (by norm_num [sys0, gains0]),
   (update_rmax_slew_amended aparm0 sys0).2.2 (by norm_num [sys0, gains0])⟩

end ATune
